import Mathlib

/-!
# Tracing wrappers of `contrib/go-redis/redis`

A shallow embedding of the traced redis client (`client.go`), of the traced
pipeline (`pipeliner.go`), of the traced cluster client (`cluster.go`,
`universal.go`) and of the part of the tracer that `tracer_test.go` exercises,
together with the statements proved about them.

Conventions of the embedding:

* a Go `string` is a Lean `String`; the only separator the wrappers split on is
  the single ASCII space, which in UTF-8 never occurs inside a multi-byte
  sequence, so splitting by character and splitting by byte agree;
* a Go `error` is `Option GoError`, `none` being `nil`;
* a Go `int` is an `Int`;
* a `*tracer.Tracer` is `Option Tracer`, `none` being the nil pointer; the other
  pointers (`*params`, `*Pipeliner`, `*Client`) are taken non-nil, as the
  constructors of the package build them;
* a run-time panic is the `Except.error` result;
* calls that leave the package are recorded, in order, in the `log` of the
  `World`; the backend (the redis server seen through the untraced client) is a
  state of an arbitrary type `σ` that only the wrapped functions act on;
* the params of a cluster client are written while it is in use, so the cluster
  functions take the `ClusterClient` before the call and return it after it;
  executions are sequential.
-/

set_option autoImplicit false
set_option linter.dupNamespace false

namespace Redistrace

/-! ## Go standard library -/

/-- A non-nil Go `error`; `text` is what its `Error()` method returns. -/
structure GoError where
  text : String
  deriving DecidableEq, Repr

/-- Go `errors.New`. -/
def errors_New (text : String) : GoError := ⟨text⟩

/-- Go `strconv.Itoa`: the base-10 rendering of an integer. -/
def strconv_Itoa (i : Int) : String :=
  match i with
  | Int.ofNat n => Nat.repr n
  | Int.negSucc n => "-" ++ Nat.repr (n + 1)

/-- The pieces of a byte sequence cut at every occurrence of the separator `c`:
what the loop of Go `strings.genSplit` produces for a one-byte separator. -/
def splitChars (c : Char) : List Char → List (List Char)
  | [] => [[]]
  | x :: xs =>
    if x = c then [] :: splitChars c xs
    else
      match splitChars c xs with
      | [] => [[x]]
      | p :: ps => (x :: p) :: ps

/-- Go `strings.Split(s, sep)` for a separator `sep` of one byte, the only kind
the wrappers pass (`" "`). -/
def strings_Split (s : String) (sep : Char) : List String :=
  (splitChars sep s.data).map String.mk

/-- Go `bytealg.IndexByteString`: the index of the first `b` in `s`, `none` for
Go's `-1`. -/
def IndexByteString (s : List Char) (b : Char) : Option Nat :=
  if s.indexOf b < s.length then some (s.indexOf b) else none

/-- Go `net.last`: the index of the last `b` in `s`, `none` for Go's `-1`. -/
def last (s : List Char) (b : Char) : Option Nat :=
  if s.reverse.indexOf b < s.length then some (s.length - 1 - s.reverse.indexOf b) else none

/-- Go `net.AddrError`. -/
structure AddrError where
  Err : String
  Addr : String
  deriving DecidableEq, Repr

/-- Go `net.SplitHostPort`: splits `host:port`, `[host]:port` into host and
port, and fails on an address without a port, with too many colons or with a
misplaced bracket. The slice `hostport[a:b]` is `(s.take b).drop a`. -/
def net_SplitHostPort (hostport : String) : Except AddrError (String × String) :=
  let missingPort := "missing port in address"
  let tooManyColons := "too many colons in address"
  let addrErr := fun (addr why : String) =>
    (Except.error ⟨why, addr⟩ : Except AddrError (String × String))
  let s := hostport.data
  -- The port starts after the last colon.
  match last s ':' with
  | none => addrErr hostport missingPort
  | some i =>
    -- the checks that follow both branches of the `if hostport[0] == '['`
    let rest := fun (host : List Char) (j k : Nat) =>
      if (IndexByteString (s.drop j) '[').isSome then
        addrErr hostport "unexpected '[' in address"
      else if (IndexByteString (s.drop k) ']').isSome then
        addrErr hostport "unexpected ']' in address"
      else
        Except.ok (String.mk host, String.mk (s.drop (i + 1)))
    if s.head? = some '[' then
      -- Expect the first ']' just before the last ':'.
      match IndexByteString s ']' with
      | none => addrErr hostport "missing ']' in address"
      | some end_ =>
        if end_ + 1 = s.length then
          -- There can't be a ':' behind the ']' now.
          addrErr hostport missingPort
        else if end_ + 1 = i then
          -- The expected result.
          rest ((s.take end_).drop 1) 1 (end_ + 1)
        else if s.get? (end_ + 1) = some ':' then
          addrErr hostport tooManyColons
        else
          addrErr hostport missingPort
    else
      let host := s.take i
      if (IndexByteString host ':').isSome then
        addrErr hostport tooManyColons
      else
        rest host 0 0

/-! ## go-redis -/

/-- A `redis.Cmder`: the wrappers only call its `String()` method. -/
structure Cmder where
  String : String
  deriving DecidableEq, Repr

/-- `redis.Options`, the two fields the wrappers read. -/
structure Options where
  Addr : String
  DB : Int
  deriving DecidableEq, Repr

/-! ## Package `tracer`

The tracer is a collaborator of the wrappers and its sources are not part of
the files under study; what the wrappers call is modelled from the
specification of the tracing core. -/

/-- A non-nil `*tracer.Tracer`, identified by its address. -/
structure Tracer where
  addr : Nat
  deriving DecidableEq, Repr

/-- Modelled from the spec: the `Span` of package `tracer`, whose declaration is
not under `src/`. The fields are the ones the wrappers write and the tests read
(name, service, resource, the three identifiers, the error flag, the string
metadata, the owning tracer); `finished` records that `Finish` has run. -/
structure Span where
  Name : String
  Service : String
  Resource : String
  Meta : List (String × String)
  Error : Int
  SpanID : Nat
  TraceID : Nat
  ParentID : Nat
  tracer : Option Tracer
  finished : Bool
  deriving DecidableEq, Repr

/-- A `context.Context`, reduced to the span it may carry. -/
structure Context where
  span : Option Span
  deriving DecidableEq, Repr

/-- Go `context.Background()`: carries no span. -/
def context_Background : Context := ⟨none⟩

/-- The `tracer.ContextWithSpan` of the tests: the context now carries `span`. -/
def ContextWithSpan (_ctx : Context) (span : Span) : Context := ⟨some span⟩

/-- Modelled from the spec: the constant `ext.AppTypeDB`, the backend category
under which a database service is registered; its declaration is not under
`src/` and no statement depends on its value. -/
def AppTypeDB : String := "db"

/-- What the wrappers do that can be observed from outside: the calls into the
tracer and on a span, the assignments to a span's exported fields, and the
calls of the wrapped function. -/
inductive Event where
  | SetServiceInfo (t : Option Tracer) (name app appType : String)
  | NewRootSpan (t : Option Tracer) (name service resource : String)
  | NewChildSpanFromContext (t : Option Tracer) (name : String) (ctx : Context)
  | AssignService (service : String)
  | AssignResource (resource : String)
  | SetMeta (key value : String)
  | SetError (err : GoError)
  | Finish
  | oldProcess (cmd : Cmder)
  | Exec
  deriving DecidableEq, Repr

/-- The state the wrappers run in. `backend` is the state of the wrapped redis
client, `log` the events so far, `finishedSpans` the spans on which `Finish`
ran, as they were at that moment. `ids` with the cursor `nextId` is the source
of span identifiers, `DefaultTracer` the package variable
`tracer.DefaultTracer`. -/
structure World (σ : Type) where
  backend : σ
  log : List Event
  finishedSpans : List Span
  ids : Nat → Nat
  nextId : Nat
  DefaultTracer : Option Tracer

variable {σ : Type}

/-- Appends an event to the log. -/
def World.emit (w : World σ) (e : Event) : World σ :=
  { w with log := w.log ++ [e] }

/-- Draws the next identifier, a 64-bit value. -/
def World.NextSpanID (w : World σ) : Nat × World σ :=
  (w.ids w.nextId % 2 ^ 64, { w with nextId := w.nextId + 1 })

/-- Modelled from the spec: `Tracer.SetServiceInfo` (not under `src/`), "a
side-effecting registration call" that associates a service name with a backend
category. The model records the call with its receiver and arguments. -/
def SetServiceInfo (t : Option Tracer) (name app appType : String) (w : World σ) : World σ :=
  w.emit (.SetServiceInfo t name app appType)

/-- Modelled from the spec: the span constructor behind `NewRootSpan` (not under
`src/`): a fresh TraceID and SpanID, ParentID zero, the given name, service and
resource, owned by the tracer `t`. -/
def newRootSpan (t : Option Tracer) (name service resource : String) (w : World σ) :
    Span × World σ :=
  let (traceID, w) := w.NextSpanID
  let (spanID, w) := w.NextSpanID
  ({ Name := name, Service := service, Resource := resource, Meta := [], Error := 0,
     SpanID := spanID, TraceID := traceID, ParentID := 0, tracer := t, finished := false }, w)

/-- Modelled from the spec: `Tracer.NewRootSpan(name, service, resource)` (not
under `src/`). -/
def NewRootSpan (t : Option Tracer) (name service resource : String) (w : World σ) :
    Span × World σ :=
  newRootSpan t name service resource (w.emit (.NewRootSpan t name service resource))

/-- Modelled from the spec: `Tracer.NewChildSpan(name, parent)` (not under
`src/`): TraceID and Service come from the parent, the SpanID is new, the
ParentID is the parent's SpanID, the resource defaults to `name`, and the owner
is the parent's tracer. -/
def NewChildSpan (name : String) (parent : Span) (w : World σ) : Span × World σ :=
  let (spanID, w) := w.NextSpanID
  ({ Name := name, Service := parent.Service, Resource := name, Meta := [], Error := 0,
     SpanID := spanID, TraceID := parent.TraceID, ParentID := parent.SpanID,
     tracer := parent.tracer, finished := false }, w)

/-- Modelled from the spec: `Tracer.NewChildSpanFromContext(name, ctx)` (not
under `src/`), the context-carrying variant of `NewChildSpan`: the parent is the
span the context carries. The spec leaves open what a context without a span
gives; the model takes a root span named `name` with an empty service and
resource `name`, and every wrapper below overwrites the service. -/
def NewChildSpanFromContext (t : Option Tracer) (name : String) (ctx : Context)
    (w : World σ) : Span × World σ :=
  let w := w.emit (.NewChildSpanFromContext t name ctx)
  match ctx.span with
  | some parent => NewChildSpan name parent w
  | none => newRootSpan t name "" name w

/-- The metadata map with `key` bound to `value`. -/
def setKey (m : List (String × String)) (key value : String) : List (String × String) :=
  (key, value) :: m.filter (fun e => e.1 != key)

/-- The value the metadata map binds to `key`, if any. -/
def getKey (m : List (String × String)) (key : String) : Option String :=
  m.lookup key

/-- The assignment `span.Service = service`. -/
def Span.assignService (span : Span) (service : String) (w : World σ) : Span × World σ :=
  ({ span with Service := service }, w.emit (.AssignService service))

/-- The assignment `span.Resource = resource`. -/
def Span.assignResource (span : Span) (resource : String) (w : World σ) : Span × World σ :=
  ({ span with Resource := resource }, w.emit (.AssignResource resource))

/-- Modelled from the spec: `Span.SetMeta(key, value)` (not under `src/`): binds
a string metadata key. -/
def Span.SetMeta (span : Span) (key value : String) (w : World σ) : Span × World σ :=
  ({ span with Meta := setKey span.Meta key value }, w.emit (.SetMeta key value))

/-- Modelled from the spec: `Span.SetError(err)` (not under `src/`): "sets the
error flag and an error-message tag", the tag being `error.msg` as the tests
read it. -/
def Span.SetError (span : Span) (err : GoError) (w : World σ) : Span × World σ :=
  ({ span with Error := 1, Meta := setKey span.Meta "error.msg" err.text },
   w.emit (.SetError err))

/-- Modelled from the spec: `Span.Finish()` (not under `src/`): finalizes the
span and hands it over; a second call is a no-op. -/
def Span.Finish (span : Span) (w : World σ) : Span × World σ :=
  let w := w.emit .Finish
  if span.finished then (span, w)
  else
    let span := { span with finished := true }
    (span, { w with finishedSpans := w.finishedSpans ++ [span] })

/-- The tag bound to `key`, if any. -/
def Span.tag (span : Span) (key : String) : Option String :=
  getKey span.Meta key

/-- Modelled from the spec: `Span.GetMeta(key)` as the tests use it: the value of
the tag, the empty string when there is none. -/
def Span.GetMeta (span : Span) (key : String) : String :=
  (span.tag key).getD ""

/-! ## `client.go` -/

/-- A `*redis.Client` of go-redis: its options, its context and the function
that processes a command on the backend. -/
structure RedisClient (σ : Type) where
  opt : Options
  ctx : Context
  process : Cmder → σ → Option GoError × σ

/-- `(*redis.Client).Options()`. -/
def RedisClient.Options (c : RedisClient σ) : Options := c.opt

/-- `(*redis.Client).Context()`. -/
def RedisClient.Context (c : RedisClient σ) : Context := c.ctx

/-- `(*redis.Client).WithContext(ctx)`. -/
def RedisClient.WithContext (c : RedisClient σ) (ctx : Redistrace.Context) :
    RedisClient σ :=
  { c with ctx := ctx }

/-- `redis.NewClient(opt)`: a client of the server `server`, with the background
context; `opt` stands for the options as go-redis keeps them, after it has filled
in its defaults. -/
def redis_NewClient (server : Cmder → σ → Option GoError × σ) (opt : Options) :
    RedisClient σ :=
  { opt := opt, ctx := context_Background, process := server }

/-- The struct `params`: the tracer and the parameters used as context when
creating spans. -/
structure params where
  host : String
  port : String
  db : String
  service : String
  tracer : Option Tracer
  deriving DecidableEq, Repr

/-- The struct `Client`: a `*redis.Client` together with its `*params`. -/
structure Client (σ : Type) where
  Client : RedisClient σ
  params : params

/-- The function `createWrapperFromClient(tc)(oldProcess)(cmd)`. The deferred
`span.Finish()` runs when the function returns; an index out of range is a
panic. -/
def createWrapperFromClient (tc : Client σ) (oldProcess : Cmder → σ → Option GoError × σ)
    (cmd : Cmder) (w : World σ) : Except String (Option GoError × World σ) :=
  let ctx := tc.Client.Context
  let raw := cmd.String
  let parts := strings_Split raw ' '
  let length : Int := (parts.length : Int) - 1
  let p := tc.params
  let (span, w) := NewChildSpanFromContext p.tracer "redis.command" ctx w
  let (span, w) := span.assignService p.service w
  match parts.get? 0 with
  | none => .error "index out of range"
  | some parts0 =>
    let (span, w) := span.assignResource parts0 w
    let (span, w) := span.SetMeta "redis.raw_command" raw w
    let (span, w) := span.SetMeta "redis.args_length" (strconv_Itoa length) w
    let (span, w) := if p.host != "" then span.SetMeta "out.host" p.host w else (span, w)
    let (span, w) := if p.port != "" then span.SetMeta "out.port" p.port w else (span, w)
    let (span, w) := span.SetMeta "out.db" p.db w
    let (err, backend) := oldProcess cmd w.backend
    let w := { w with backend := backend }.emit (.oldProcess cmd)
    let (span, w) :=
      match err with
      | some e => span.SetError e w
      | none => (span, w)
    let (_, w) := span.Finish w
    .ok (err, w)

/-- The function `WrapClient(c, service, t)`. The wrapper it installs with
`WrapProcess` is `Client.Process` below. -/
def WrapClient (c : RedisClient σ) (service : String) (t : Option Tracer) (w : World σ) :
    Client σ × World σ :=
  let opt := c.Options
  let (host, port) :=
    match net_SplitHostPort opt.Addr with
    | .ok (host, port) => (host, port)
    | .error _ => (opt.Addr, "6379")
  let params : params :=
    { host := host, port := port, db := strconv_Itoa opt.DB, service := service, tracer := t }
  let w := SetServiceInfo t service "redis" AppTypeDB w
  let tc : Client σ := { Client := c, params := params }
  (tc, w)

/-- What a command issued on a traced client runs: `WrapClient` has installed
`createWrapperFromClient(tc)` around the process function of the client. -/
def Client.Process (tc : Redistrace.Client σ) (cmd : Cmder) (w : World σ) :
    Except String (Option GoError × World σ) :=
  createWrapperFromClient tc tc.Client.process cmd w

/-- The function `NewClientWithServiceName(opt, service, t)`. -/
def NewClientWithServiceName (server : Cmder → σ → Option GoError × σ) (opt : Options)
    (service : String) (t : Option Tracer) (w : World σ) : Client σ × World σ :=
  WrapClient (redis_NewClient server opt) service t w

/-- The function `NewClient(opt)`. -/
def NewClient (server : Cmder → σ → Option GoError × σ) (opt : Options) (w : World σ) :
    Client σ × World σ :=
  NewClientWithServiceName server opt "redis.client" w.DefaultTracer w

/-- The method `(*Client).WithContext(ctx)`. -/
def Client.WithContext (c : Redistrace.Client σ) (ctx : Context) : Redistrace.Client σ :=
  { c with Client := c.Client.WithContext ctx }

/-! ## `pipeliner.go` -/

/-- The struct `Pipeliner`: the embedded `redis.Pipeliner`, of which only `Exec`
is called, together with the `*params`. -/
structure Pipeliner (σ : Type) where
  Pipeliner : σ → (List Cmder × Option GoError) × σ
  params : params

/-- A value of the interface `redis.Pipeliner`, by its dynamic type: the nil
interface, a `*Pipeliner` of this package, or any other implementation. -/
inductive RedisPipeliner (σ : Type) where
  | nil
  | traced (c : Pipeliner σ)
  | other (exec : σ → (List Cmder × Option GoError) × σ)

/-- The method `(*Client).Pipeline()`; `pipeline` is the `Exec` of the queue that
`c.Client.Pipeline()` returns. -/
def Client.Pipeline (c : Redistrace.Client σ) (pipeline : σ → (List Cmder × Option GoError) × σ) :
    RedisPipeliner σ :=
  .traced { Pipeliner := pipeline, params := c.params }

/-- The function `commandsToString(cmds)`. -/
def commandsToString (cmds : List Cmder) : String :=
  cmds.foldl (fun b cmd => (b ++ cmd.String) ++ "\n") ""

/-- The method `(*Pipeliner).Exec()`. -/
def Pipeliner.Exec (c : Redistrace.Pipeliner σ) (w : World σ) :
    (List Cmder × Option GoError) × World σ :=
  let params := c.params
  let (span, w) := NewRootSpan params.tracer "redis.command" params.service "redis" w
  let (span, w) := if params.host != "" then span.SetMeta "out.host" params.host w else (span, w)
  let (span, w) := if params.port != "" then span.SetMeta "out.port" params.port w else (span, w)
  let (span, w) := if params.db != "" then span.SetMeta "out.db" params.db w else (span, w)
  let ((cmds, err), backend) := c.Pipeliner w.backend
  let w := { w with backend := backend }.emit .Exec
  let (span, w) :=
    match err with
    | some e => span.SetError e w
    | none => (span, w)
  let (span, w) := span.assignResource (commandsToString cmds) w
  let (span, w) := span.SetMeta "redis.pipeline_length" (strconv_Itoa cmds.length) w
  let (_, w) := span.Finish w
  ((cmds, err), w)

/-- The function `ExecWithContext(p, ctx)`. -/
def ExecWithContext (p : RedisPipeliner σ) (ctx : Context) (w : World σ) :
    (List Cmder × Option GoError) × World σ :=
  match p with
  | .traced c =>
    let params := c.params
    let (span, w) := NewChildSpanFromContext params.tracer "redis.command" ctx w
    let (span, w) := span.assignService params.service w
    let (span, w) := if params.host != "" then span.SetMeta "out.host" params.host w else (span, w)
    let (span, w) := if params.port != "" then span.SetMeta "out.port" params.port w else (span, w)
    let (span, w) := if params.db != "" then span.SetMeta "out.db" params.db w else (span, w)
    let ((cmds, err), backend) := c.Pipeliner w.backend
    let w := { w with backend := backend }.emit .Exec
    let (span, w) :=
      match err with
      | some e => span.SetError e w
      | none => (span, w)
    let (span, w) := span.assignResource (commandsToString cmds) w
    let (span, w) := span.SetMeta "redis.pipeline_length" (strconv_Itoa cmds.length) w
    let (_, w) := span.Finish w
    ((cmds, err), w)
  | _ => (([], some (errors_New "pipeliner is not of type *redistrace.Pipeliner")), w)

/-- The event is a call of the function a wrapper wraps: `oldProcess(cmd)` or
the `Exec()` of the embedded pipeliner. -/
def Event.isCall : Event → Bool
  | .oldProcess _ => true
  | .Exec => true
  | _ => false

/-! ## `cluster.go` -/

/-- A `*redis.ClusterClient` of go-redis, reduced to its node clients, the ones
`ForEachNode` visits. -/
structure RedisClusterClient (σ : Type) where
  nodes : List (RedisClient σ)

/-- The struct `ClusterClient`: a `*redis.ClusterClient` together with its
`*params`. The params are written while the client is in use, so the functions
below take the cluster client as it is before a call and return it as it is
after it. -/
structure ClusterClient (σ : Type) where
  ClusterClient : RedisClusterClient σ
  params : params

/-- The method `(*ClusterClient).lastSuccessfulCall(client)`; `none` is the nil
client. -/
def ClusterClient.lastSuccessfulCall (c : Redistrace.ClusterClient σ)
    (client : Option (RedisClient σ)) : Redistrace.ClusterClient σ :=
  let (host, port, db) :=
    match client with
    | some client =>
      let opt := client.Options
      let (host, port) :=
        match net_SplitHostPort opt.Addr with
        | .ok (host, port) => (host, port)
        | .error _ => (opt.Addr, "6379")
      (host, port, strconv_Itoa opt.DB)
    | none => ("", "", "")
  { c with params := { c.params with host := host, port := port, db := db } }

/-- The wrapper that `WrapClusterClient` installs on every node `c` of the
cluster (`cluster.go`, lines 33-45): it runs the node's process function and
records the node on success. The `log.Printf` line writes to the standard
logger only. -/
def clusterNodeWrapper (c : RedisClient σ) (oldProcess : Cmder → σ → Option GoError × σ)
    (cmd : Cmder) (cluster : ClusterClient σ) (s : σ) :
    Option GoError × ClusterClient σ × σ :=
  let (err, s) := oldProcess cmd s
  let cluster := if err.isNone then cluster.lastSuccessfulCall (some c) else cluster
  (err, cluster, s)

/-- The wrapper that `WrapClusterClient` installs on the cluster itself
(`cluster.go`, lines 46-80). Its `oldProcess` is the process function of the
go-redis cluster client, which goes through the node wrappers and so may write
the params of the cluster; `p` is a pointer, so `p.host`, `p.port` and `p.db`
are read where the source reads them, before `oldProcess` runs. -/
def clusterWrapper
    (oldProcess : Cmder → ClusterClient σ → σ → Option GoError × ClusterClient σ × σ)
    (cmd : Cmder) (cluster : ClusterClient σ) (w : World σ) :
    Except String (Option GoError × ClusterClient σ × World σ) :=
  let cluster := cluster.lastSuccessfulCall none
  let raw := cmd.String
  let parts := strings_Split raw ' '
  let length : Int := (parts.length : Int) - 1
  let p := cluster.params
  let (span, w) := NewChildSpanFromContext p.tracer "redis.command" context_Background w
  let (span, w) := span.assignService p.service w
  match parts.get? 0 with
  | none => .error "index out of range"
  | some parts0 =>
    let (span, w) := span.assignResource parts0 w
    let (span, w) := span.SetMeta "redis.raw_command" raw w
    let (span, w) := span.SetMeta "redis.args_length" (strconv_Itoa length) w
    let (span, w) :=
      if p.host != "" || p.port != "" then
        let (span, w) := span.SetMeta "out.host" p.host w
        span.SetMeta "out.port" p.port w
      else (span, w)
    let (span, w) := if p.db != "" then span.SetMeta "out.db" p.db w else (span, w)
    let (err, cluster, backend) := oldProcess cmd cluster w.backend
    let w := { w with backend := backend }.emit (.oldProcess cmd)
    let (span, w) :=
      match err with
      | some e => span.SetError e w
      | none => (span, w)
    let (_, w) := span.Finish w
    .ok (err, cluster, w)

/-- The function `WrapClusterClient(client, service)`. The wrappers it installs
with `ForEachNode` and `WrapProcess` are `clusterNodeWrapper` and
`clusterWrapper`. -/
def WrapClusterClient (client : RedisClusterClient σ) (service : String) (w : World σ) :
    ClusterClient σ × World σ :=
  let t := w.DefaultTracer
  let cluster : ClusterClient σ :=
    { ClusterClient := client,
      params := { host := "", port := "", db := "", service := service, tracer := t } }
  let w := SetServiceInfo t service "redis" AppTypeDB w
  (cluster, w)

/-- The function `NewClusterClientWithServiceName(opts, service)`;
`redis_NewClusterClient` stands for `redis.NewClusterClient`. -/
def NewClusterClientWithServiceName {o : Type}
    (redis_NewClusterClient : o → RedisClusterClient σ) (opts : o) (_service : String)
    (w : World σ) : ClusterClient σ × World σ :=
  WrapClusterClient (redis_NewClusterClient opts) "redis.cluster-client" w

/-- The function `NewClusterClient(opts)`. -/
def NewClusterClient {o : Type} (redis_NewClusterClient : o → RedisClusterClient σ)
    (opts : o) (w : World σ) : ClusterClient σ × World σ :=
  NewClusterClientWithServiceName redis_NewClusterClient opts "redis.cluster-client" w

/-! ## `universal.go` -/

/-- A value of the interface `redis.UniversalClient` as `redis.NewUniversalClient`
returns it, by its dynamic type. -/
inductive RedisUniversalClient (σ : Type) where
  | client (v : RedisClient σ)
  | cluster (v : RedisClusterClient σ)
  | other

/-- A value of `redis.UniversalClient` as this package returns it. -/
inductive UniversalClient (σ : Type) where
  | client (v : Client σ)
  | cluster (v : ClusterClient σ)

/-- The function `NewUniversalClientWithServiceName(opts, service)`;
`redis_NewUniversalClient` stands for `redis.NewUniversalClient`. -/
def NewUniversalClientWithServiceName {o : Type}
    (redis_NewUniversalClient : o → RedisUniversalClient σ) (opts : o) (service : String)
    (w : World σ) : Except String (UniversalClient σ × World σ) :=
  let c := redis_NewUniversalClient opts
  match c with
  | .client v =>
    let (tc, w) := WrapClient v service w.DefaultTracer w
    .ok (.client tc, w)
  | .cluster v =>
    let (cl, w) := WrapClusterClient v service w
    .ok (.cluster cl, w)
  | .other => .error "unsupported client"

/-- The function `NewUniversalClient(opts)`. -/
def NewUniversalClient {o : Type} (redis_NewUniversalClient : o → RedisUniversalClient σ)
    (opts : o) (w : World σ) : Except String (UniversalClient σ × World σ) :=
  NewUniversalClientWithServiceName redis_NewUniversalClient opts "redis.client" w

/-! ## The tracer's own bookkeeping

What `tracer_test.go` exercises: a tracer that can be disabled and enabled, and
the buffer its finished spans reach. None of it is read by the redis wrappers. -/

/-- Modelled from the spec: the state of a `Tracer` (section 4.6), whose
declaration is not under `src/`: the Enabled/Disabled flag, the sampler's
keep/drop decision for a trace identifier (section 4.2), the trace buffer
(section 4.3) that groups finished spans by TraceID, and the source of
identifiers. The capacity ceiling of the buffer is not modelled. -/
structure TracerState where
  self : Tracer
  enabled : Bool
  keep : Nat → Bool
  buffer : List (Nat × List Span)
  ids : Nat → Nat
  nextId : Nat

/-- Modelled from the spec: a span together with the decision, taken when the
span was created, whether its `Finish` reaches the buffer: "disabling the tracer
before span creation => Finish never adds the trace to the buffer; re-enabling
affects only subsequently created spans". -/
structure TracedSpan where
  span : Span
  sampled : Bool
  deriving DecidableEq, Repr

/-- Modelled from the spec: `NewTracer()` (not under `src/`): enabled by default,
an empty buffer, and a sampler that keeps every trace, as the tests of the
default tracer expect. -/
def NewTracer (addr : Nat) (ids : Nat → Nat) : TracerState :=
  { self := ⟨addr⟩, enabled := true, keep := fun _ => true, buffer := [], ids := ids,
    nextId := 0 }

/-- Modelled from the spec: `Tracer.Disable()` (not under `src/`). -/
def TracerState.Disable (t : TracerState) : TracerState :=
  { t with enabled := false }

/-- Modelled from the spec: `Tracer.Enable()` (not under `src/`). -/
def TracerState.Enable (t : TracerState) : TracerState :=
  { t with enabled := true }

/-- Modelled from the spec: `Tracer.NewSpan(name, service, resource)` (not under
`src/`), a root span: fresh TraceID and SpanID, ParentID zero; the sampler is
consulted once, and a disabled tracer samples nothing. -/
def TracerState.NewSpan (t : TracerState) (name service resource : String) :
    TracedSpan × TracerState :=
  let traceID := t.ids t.nextId % 2 ^ 64
  let spanID := t.ids (t.nextId + 1) % 2 ^ 64
  ({ span := { Name := name, Service := service, Resource := resource, Meta := [],
               Error := 0, SpanID := spanID, TraceID := traceID, ParentID := 0,
               tracer := some t.self, finished := false },
     sampled := t.enabled && t.keep traceID },
   { t with nextId := t.nextId + 2 })

/-- Modelled from the spec: the `Push` of the trace buffer (section 4.3): the
span joins the accumulator of its TraceID, which is created on first use. -/
def Push (buffer : List (Nat × List Span)) (span : Span) : List (Nat × List Span) :=
  if buffer.any (fun e => e.1 == span.TraceID) then
    buffer.map (fun e => if e.1 == span.TraceID then (e.1, e.2 ++ [span]) else e)
  else buffer ++ [(span.TraceID, [span])]

/-- Modelled from the spec: what `Span.Finish()` does in the tracer: a second
call is a no-op, and the span is pushed into the buffer only when it was sampled
at its creation. -/
def TracerState.Finish (t : TracerState) (s : TracedSpan) : TracedSpan × TracerState :=
  if s.span.finished then (s, t)
  else
    let span := { s.span with finished := true }
    ({ s with span := span }, if s.sampled then { t with buffer := Push t.buffer span } else t)

/-- Modelled from the spec: `buffer.Len()`, the number of traces currently
buffered. -/
def TracerState.Len (t : TracerState) : Nat := t.buffer.length

/-- The test `TestTracerDisabled` of `tracer_test.go`: the length of the buffer
after a span is created and finished on a disabled new tracer. -/
def TestTracerDisabled (addr : Nat) (ids : Nat → Nat) : Nat :=
  let tracer := NewTracer addr ids
  let tracer := tracer.Disable
  let (span, tracer) := tracer.NewSpan "pylons.request" "pylons" "/"
  let (_, tracer) := tracer.Finish span
  tracer.Len

/-- The test `TestTracerEnabledAgain` of `tracer_test.go`: the length of the
buffer after one span is created and finished while the tracer is disabled and
another after it is enabled again. -/
def TestTracerEnabledAgain (addr : Nat) (ids : Nat → Nat) : Nat :=
  let tracer := NewTracer addr ids
  let tracer := tracer.Disable
  let (preSpan, tracer) := tracer.NewSpan "pylons.request" "pylons" "/"
  let (_, tracer) := tracer.Finish preSpan
  let tracer := tracer.Enable
  let (postSpan, tracer) := tracer.NewSpan "pylons.request" "pylons" "/"
  let (_, tracer) := tracer.Finish postSpan
  tracer.Len

/-- What an event changes on the span it is made on: an assignment writes the
field, `SetMeta` binds the key, `SetError` sets the flag and `error.msg`,
`Finish` marks the span finished; the other events are not made on a span. -/
def Event.onSpan : Event → Span → Span
  | .AssignService service, span => { span with Service := service }
  | .AssignResource resource, span => { span with Resource := resource }
  | .SetMeta key value, span => { span with Meta := setKey span.Meta key value }
  | .SetError err, span =>
    { span with Error := 1, Meta := setKey span.Meta "error.msg" err.text }
  | .Finish, span => { span with finished := true }
  | _, span => span

/-- The span after the events `evs` were made on it, in order. -/
def replay (evs : List Event) (span : Span) : Span :=
  evs.foldl (fun s e => e.onSpan s) span

/-! ## Properties

### Auxiliary facts -/

theorem splitChars_cons (c : Char) (l : List Char) : ∃ p ps, splitChars c l = p :: ps := by
  induction l with
  | nil => exact ⟨[], [], rfl⟩
  | cons x xs ih =>
    obtain ⟨p, ps, h⟩ := ih
    by_cases hx : x = c
    · exact ⟨[], splitChars c xs, by simp [splitChars, hx]⟩
    · exact ⟨x :: p, ps, by simp [splitChars, hx, h]⟩

theorem strings_Split_cons (s : String) (c : Char) : ∃ p ps, strings_Split s c = p :: ps := by
  obtain ⟨p, ps, h⟩ := splitChars_cons c s.data
  exact ⟨String.mk p, ps.map String.mk, by simp [strings_Split, h]⟩

theorem splitChars_length (c : Char) (l : List Char) :
    (splitChars c l).length = l.count c + 1 := by
  induction l with
  | nil => rfl
  | cons x xs ih =>
    by_cases hx : x = c
    · subst hx
      simp [splitChars, ih]
    · obtain ⟨p, ps, h⟩ := splitChars_cons c xs
      have hne : (x == c) = false := by simpa using hx
      rw [h] at ih
      simp only [List.length_cons] at ih
      simp [splitChars, hx, h, List.count_cons, hne, ← ih]

theorem strings_Split_length (s : String) (c : Char) :
    (strings_Split s c).length = s.data.count c + 1 := by
  simp [strings_Split, splitChars_length]

theorem getKey_nil (k : String) : getKey [] k = none := rfl

theorem getKey_setKey (m : List (String × String)) (k k' v : String) :
    getKey (setKey m k' v) k = if k = k' then some v else getKey m k := by
  unfold getKey
  by_cases h : k = k'
  · simp [setKey, List.lookup, h]
  · have hb : (k == k') = false := by simpa using h
    simp only [setKey, List.lookup, hb, if_neg h]
    induction m with
    | nil => simp
    | cons e es ih =>
      obtain ⟨a, b⟩ := e
      by_cases hak : a = k'
      · have hka : (k == a) = false := by simpa [hak] using h
        simp [List.filter_cons, List.lookup, hak, hb, ih]
      · by_cases hka : k = a
        · simp [List.filter_cons, List.lookup, hak, hka]
        · have hb2 : (k == a) = false := by simpa using hka
          simp [List.filter_cons, List.lookup, hak, hb2, ih]

theorem commandsToString_foldl (cmds : List Cmder) (b : String) :
    cmds.foldl (fun b cmd => (b ++ cmd.String) ++ "\n") b
      = b ++ String.join (cmds.map (fun cmd => cmd.String ++ "\n")) := by
  induction cmds generalizing b with
  | nil => apply String.ext; simp
  | cons c cs ih =>
    rw [List.foldl_cons, ih]
    apply String.ext
    simp

/-- Everything the client command wrapper does, in one statement: its result,
the backend it leaves, the events it appends and the span it finishes. -/
theorem createWrapperFromClient_spec (tc : Client σ)
    (oldProcess : Cmder → σ → Option GoError × σ) (cmd : Cmder) (w : World σ) :
    ∃ span w',
      createWrapperFromClient tc oldProcess cmd w = .ok ((oldProcess cmd w.backend).1, w') ∧
      w'.backend = (oldProcess cmd w.backend).2 ∧
      w'.finishedSpans = w.finishedSpans ++ [span] ∧
      w'.log = w.log ++
        [.NewChildSpanFromContext tc.params.tracer "redis.command" tc.Client.ctx,
         .AssignService tc.params.service,
         .AssignResource ((strings_Split cmd.String ' ').headD ""),
         .SetMeta "redis.raw_command" cmd.String,
         .SetMeta "redis.args_length"
            (strconv_Itoa (((strings_Split cmd.String ' ').length : Int) - 1))] ++
        (if tc.params.host = "" then [] else [.SetMeta "out.host" tc.params.host]) ++
        (if tc.params.port = "" then [] else [.SetMeta "out.port" tc.params.port]) ++
        [.SetMeta "out.db" tc.params.db, .oldProcess cmd] ++
        (match (oldProcess cmd w.backend).1 with
          | some e => [.SetError e]
          | none => []) ++
        [.Finish] ∧
      span.Name = "redis.command" ∧
      span.Service = tc.params.service ∧
      span.Resource = (strings_Split cmd.String ' ').headD "" ∧
      span.finished = true ∧
      span.ParentID = (match tc.Client.ctx.span with
        | some parent => parent.SpanID
        | none => 0) ∧
      span.tag "redis.raw_command" = some cmd.String ∧
      span.tag "redis.args_length"
        = some (strconv_Itoa (((strings_Split cmd.String ' ').length : Int) - 1)) ∧
      span.tag "out.host" = (if tc.params.host = "" then none else some tc.params.host) ∧
      span.tag "out.port" = (if tc.params.port = "" then none else some tc.params.port) ∧
      span.tag "out.db" = some tc.params.db ∧
      span.tag "error.msg" = ((oldProcess cmd w.backend).1).map GoError.text ∧
      span.Error = (if ((oldProcess cmd w.backend).1).isSome then 1 else 0) := by
  obtain ⟨p, ps, h⟩ := strings_Split_cons cmd.String ' '
  unfold createWrapperFromClient
  rcases hr : oldProcess cmd w.backend with ⟨err, b⟩
  cases hctx : tc.Client.ctx.span <;> by_cases hh : tc.params.host = "" <;>
    by_cases hp : tc.params.port = "" <;> cases err <;>
    simp [h, hr, hctx, hh, hp, RedisClient.Context, NewChildSpanFromContext, NewChildSpan,
      newRootSpan, World.NextSpanID, World.emit, Span.assignService, Span.assignResource,
      Span.SetMeta, Span.SetError, Span.Finish, Span.tag, getKey_nil, getKey_setKey]

/-- Everything `Pipeliner.Exec` does, in one statement. -/
theorem Pipeliner_Exec_spec (c : Pipeliner σ) (w : World σ) :
    ∃ span,
      (c.Exec w).1 = (c.Pipeliner w.backend).1 ∧
      (c.Exec w).2.backend = (c.Pipeliner w.backend).2 ∧
      (c.Exec w).2.finishedSpans = w.finishedSpans ++ [span] ∧
      (c.Exec w).2.log = w.log ++
        [.NewRootSpan c.params.tracer "redis.command" c.params.service "redis"] ++
        (if c.params.host = "" then [] else [.SetMeta "out.host" c.params.host]) ++
        (if c.params.port = "" then [] else [.SetMeta "out.port" c.params.port]) ++
        (if c.params.db = "" then [] else [.SetMeta "out.db" c.params.db]) ++
        [.Exec] ++
        (match (c.Pipeliner w.backend).1.2 with
          | some e => [.SetError e]
          | none => []) ++
        [.AssignResource (commandsToString (c.Pipeliner w.backend).1.1),
         .SetMeta "redis.pipeline_length" (strconv_Itoa (c.Pipeliner w.backend).1.1.length),
         .Finish] ∧
      span.Name = "redis.command" ∧
      span.Service = c.params.service ∧
      span.Resource = commandsToString (c.Pipeliner w.backend).1.1 ∧
      span.finished = true ∧
      span.ParentID = 0 ∧
      span.tag "redis.pipeline_length"
        = some (strconv_Itoa (c.Pipeliner w.backend).1.1.length) ∧
      span.tag "out.host" = (if c.params.host = "" then none else some c.params.host) ∧
      span.tag "out.port" = (if c.params.port = "" then none else some c.params.port) ∧
      span.tag "out.db" = (if c.params.db = "" then none else some c.params.db) ∧
      span.tag "error.msg" = ((c.Pipeliner w.backend).1.2).map GoError.text ∧
      span.Error = (if ((c.Pipeliner w.backend).1.2).isSome then 1 else 0) := by
  unfold Pipeliner.Exec
  rcases hr : c.Pipeliner w.backend with ⟨⟨cmds, err⟩, b⟩
  by_cases hh : c.params.host = "" <;> by_cases hp : c.params.port = "" <;>
    by_cases hd : c.params.db = "" <;> cases err <;>
    simp [hr, hh, hp, hd, NewRootSpan, newRootSpan, World.NextSpanID, World.emit,
      Span.assignResource, Span.SetMeta, Span.SetError, Span.Finish, Span.tag, getKey_nil,
      getKey_setKey]

/-- Everything `ExecWithContext` does on a `*Pipeliner`, in one statement. -/
theorem ExecWithContext_spec (c : Pipeliner σ) (ctx : Context) (w : World σ) :
    ∃ span,
      (ExecWithContext (.traced c) ctx w).1 = (c.Pipeliner w.backend).1 ∧
      (ExecWithContext (.traced c) ctx w).2.backend = (c.Pipeliner w.backend).2 ∧
      (ExecWithContext (.traced c) ctx w).2.finishedSpans = w.finishedSpans ++ [span] ∧
      (ExecWithContext (.traced c) ctx w).2.log = w.log ++
        [.NewChildSpanFromContext c.params.tracer "redis.command" ctx,
         .AssignService c.params.service] ++
        (if c.params.host = "" then [] else [.SetMeta "out.host" c.params.host]) ++
        (if c.params.port = "" then [] else [.SetMeta "out.port" c.params.port]) ++
        (if c.params.db = "" then [] else [.SetMeta "out.db" c.params.db]) ++
        [.Exec] ++
        (match (c.Pipeliner w.backend).1.2 with
          | some e => [.SetError e]
          | none => []) ++
        [.AssignResource (commandsToString (c.Pipeliner w.backend).1.1),
         .SetMeta "redis.pipeline_length" (strconv_Itoa (c.Pipeliner w.backend).1.1.length),
         .Finish] ∧
      span.Name = "redis.command" ∧
      span.Service = c.params.service ∧
      span.Resource = commandsToString (c.Pipeliner w.backend).1.1 ∧
      span.finished = true ∧
      span.ParentID = (match ctx.span with
        | some parent => parent.SpanID
        | none => 0) ∧
      span.tag "redis.pipeline_length"
        = some (strconv_Itoa (c.Pipeliner w.backend).1.1.length) ∧
      span.tag "out.host" = (if c.params.host = "" then none else some c.params.host) ∧
      span.tag "out.port" = (if c.params.port = "" then none else some c.params.port) ∧
      span.tag "out.db" = (if c.params.db = "" then none else some c.params.db) ∧
      span.tag "error.msg" = ((c.Pipeliner w.backend).1.2).map GoError.text ∧
      span.Error = (if ((c.Pipeliner w.backend).1.2).isSome then 1 else 0) := by
  unfold ExecWithContext
  rcases hr : c.Pipeliner w.backend with ⟨⟨cmds, err⟩, b⟩
  cases hctx : ctx.span <;> by_cases hh : c.params.host = "" <;>
    by_cases hp : c.params.port = "" <;> by_cases hd : c.params.db = "" <;> cases err <;>
    simp [hr, hctx, hh, hp, hd, NewChildSpanFromContext, NewChildSpan, newRootSpan,
      World.NextSpanID, World.emit, Span.assignService, Span.assignResource, Span.SetMeta,
      Span.SetError, Span.Finish, Span.tag, getKey_nil, getKey_setKey]

theorem splitChars_headD (c : Char) (l : List Char) :
    (splitChars c l).headD [] = l.takeWhile (fun x => x != c) := by
  induction l with
  | nil => rfl
  | cons x xs ih =>
    by_cases hx : x = c
    · simp [splitChars, hx, List.takeWhile]
    · obtain ⟨p, ps, h⟩ := splitChars_cons c xs
      rw [h] at ih
      simp only [List.headD_cons] at ih
      have hne : (x != c) = true := by simpa using hx
      simp [splitChars, hx, h, List.takeWhile, ih, hne]

theorem strings_Split_headD (s : String) (c : Char) :
    (strings_Split s c).headD "" = String.mk (s.data.takeWhile (fun x => x != c)) := by
  obtain ⟨p, ps, h⟩ := splitChars_cons c s.data
  have hh := splitChars_headD c s.data
  rw [h] at hh
  simp only [List.headD_cons] at hh
  simp [strings_Split, h, hh]

/-- Everything the cluster command wrapper does, in one statement; `r` is the
outcome of `oldProcess` on the cluster whose params have just been cleared. -/
theorem clusterWrapper_spec
    (oldProcess : Cmder → ClusterClient σ → σ → Option GoError × ClusterClient σ × σ)
    (cmd : Cmder) (cluster : ClusterClient σ) (w : World σ) :
    ∃ span w',
      clusterWrapper oldProcess cmd cluster w
        = .ok ((oldProcess cmd (cluster.lastSuccessfulCall none) w.backend).1,
               (oldProcess cmd (cluster.lastSuccessfulCall none) w.backend).2.1, w') ∧
      w'.backend = (oldProcess cmd (cluster.lastSuccessfulCall none) w.backend).2.2 ∧
      w'.finishedSpans = w.finishedSpans ++ [span] ∧
      w'.log = w.log ++
        [.NewChildSpanFromContext cluster.params.tracer "redis.command" context_Background,
         .AssignService cluster.params.service,
         .AssignResource ((strings_Split cmd.String ' ').headD ""),
         .SetMeta "redis.raw_command" cmd.String,
         .SetMeta "redis.args_length"
            (strconv_Itoa (((strings_Split cmd.String ' ').length : Int) - 1)),
         .oldProcess cmd] ++
        (match (oldProcess cmd (cluster.lastSuccessfulCall none) w.backend).1 with
          | some e => [.SetError e]
          | none => []) ++
        [.Finish] ∧
      span.Name = "redis.command" ∧
      span.Service = cluster.params.service ∧
      span.Resource = (strings_Split cmd.String ' ').headD "" ∧
      span.finished = true ∧
      span.tag "out.host" = none ∧
      span.tag "out.port" = none ∧
      span.tag "out.db" = none := by
  obtain ⟨p, ps, h⟩ := strings_Split_cons cmd.String ' '
  unfold clusterWrapper
  have hhost : (cluster.lastSuccessfulCall none).params.host = "" := rfl
  have hport : (cluster.lastSuccessfulCall none).params.port = "" := rfl
  have hdb : (cluster.lastSuccessfulCall none).params.db = "" := rfl
  have hsvc : (cluster.lastSuccessfulCall none).params.service = cluster.params.service := rfl
  have htr : (cluster.lastSuccessfulCall none).params.tracer = cluster.params.tracer := rfl
  generalize cluster.lastSuccessfulCall none = cl0 at *
  rcases hr : oldProcess cmd cl0 w.backend with ⟨err, cl, b⟩
  cases err <;>
    simp [h, hr, hhost, hport, hdb, hsvc, htr, context_Background, NewChildSpanFromContext,
      newRootSpan, World.NextSpanID, World.emit, Span.assignService, Span.assignResource,
      Span.SetMeta, Span.SetError, Span.Finish, Span.tag, getKey_nil, getKey_setKey]

/-- On a context without a span `ExecWithContext` finishes the very span that
`Pipeliner.Exec` finishes. -/
theorem ExecWithContext_finishes_same_span (c : Pipeliner σ) (w : World σ) :
    (ExecWithContext (.traced c) context_Background w).2.finishedSpans
      = (c.Exec w).2.finishedSpans := by
  unfold ExecWithContext Pipeliner.Exec
  rcases hr : c.Pipeliner w.backend with ⟨⟨cmds, err⟩, b⟩
  by_cases hh : c.params.host = "" <;> by_cases hp : c.params.port = "" <;>
    by_cases hd : c.params.db = "" <;> cases err <;>
    simp [hr, hh, hp, hd, context_Background, NewChildSpanFromContext, NewRootSpan,
      newRootSpan, World.NextSpanID, World.emit, Span.assignService, Span.assignResource,
      Span.SetMeta, Span.SetError, Span.Finish]

theorem drop_length_succ (l r : List Event) (e : Event) :
    (l ++ e :: r).drop (l.length + 1) = r := by
  simp

/-- The operations on a span change it as `Event.onSpan` of the event they log. -/
theorem onSpan_agrees (span : Span) (key value : String) (err : GoError) (w : World σ) :
    (span.assignService value w).1 = (Event.AssignService value).onSpan span ∧
    (span.assignResource value w).1 = (Event.AssignResource value).onSpan span ∧
    (span.SetMeta key value w).1 = (Event.SetMeta key value).onSpan span ∧
    (span.SetError err w).1 = (Event.SetError err).onSpan span ∧
    (span.Finish w).1 = Event.Finish.onSpan span := by
  refine ⟨rfl, rfl, rfl, rfl, ?_⟩
  unfold Span.Finish Event.onSpan
  by_cases h : span.finished = true
  · simp [h]
    cases span
    simp_all
  · simp [h]

/-- The client command wrapper, event by event: the events after the creation
of the span, and the finished span as the created span with those events made
on it. -/
theorem createWrapperFromClient_replay (tc : Client σ)
    (oldProcess : Cmder → σ → Option GoError × σ) (cmd : Cmder) (w : World σ) :
    ∃ w' evs,
      createWrapperFromClient tc oldProcess cmd w = .ok ((oldProcess cmd w.backend).1, w') ∧
      evs =
        [.AssignService tc.params.service,
         .AssignResource ((strings_Split cmd.String ' ').headD ""),
         .SetMeta "redis.raw_command" cmd.String,
         .SetMeta "redis.args_length"
            (strconv_Itoa (((strings_Split cmd.String ' ').length : Int) - 1))] ++
        (if tc.params.host = "" then [] else [.SetMeta "out.host" tc.params.host]) ++
        (if tc.params.port = "" then [] else [.SetMeta "out.port" tc.params.port]) ++
        [.SetMeta "out.db" tc.params.db, .oldProcess cmd] ++
        (match (oldProcess cmd w.backend).1 with
          | some e => [.SetError e]
          | none => []) ∧
      w'.log = w.log ++
        [.NewChildSpanFromContext tc.params.tracer "redis.command" tc.Client.ctx] ++ evs ++
        [.Finish] ∧
      w'.finishedSpans = w.finishedSpans ++
        [replay (evs ++ [.Finish])
          (NewChildSpanFromContext tc.params.tracer "redis.command" tc.Client.ctx w).1] ∧
      (NewChildSpanFromContext tc.params.tracer "redis.command" tc.Client.ctx w).1.finished
        = false := by
  obtain ⟨p, ps, h⟩ := strings_Split_cons cmd.String ' '
  unfold createWrapperFromClient
  rcases hr : oldProcess cmd w.backend with ⟨err, b⟩
  cases hctx : tc.Client.ctx.span <;> by_cases hh : tc.params.host = "" <;>
    by_cases hp : tc.params.port = "" <;> cases err <;>
    simp [h, hr, hctx, hh, hp, RedisClient.Context, NewChildSpanFromContext, NewChildSpan,
      newRootSpan, World.NextSpanID, World.emit, Span.assignService, Span.assignResource,
      Span.SetMeta, Span.SetError, Span.Finish, replay, Event.onSpan]

/-- The cluster command wrapper, event by event. -/
theorem clusterWrapper_replay
    (oldProcess : Cmder → ClusterClient σ → σ → Option GoError × ClusterClient σ × σ)
    (cmd : Cmder) (cluster : ClusterClient σ) (w : World σ) :
    ∃ w' evs,
      clusterWrapper oldProcess cmd cluster w
        = .ok ((oldProcess cmd (cluster.lastSuccessfulCall none) w.backend).1,
               (oldProcess cmd (cluster.lastSuccessfulCall none) w.backend).2.1, w') ∧
      evs =
        [.AssignService cluster.params.service,
         .AssignResource ((strings_Split cmd.String ' ').headD ""),
         .SetMeta "redis.raw_command" cmd.String,
         .SetMeta "redis.args_length"
            (strconv_Itoa (((strings_Split cmd.String ' ').length : Int) - 1)),
         .oldProcess cmd] ++
        (match (oldProcess cmd (cluster.lastSuccessfulCall none) w.backend).1 with
          | some e => [.SetError e]
          | none => []) ∧
      w'.log = w.log ++
        [.NewChildSpanFromContext cluster.params.tracer "redis.command" context_Background]
        ++ evs ++ [.Finish] ∧
      w'.finishedSpans = w.finishedSpans ++
        [replay (evs ++ [.Finish])
          (NewChildSpanFromContext cluster.params.tracer "redis.command" context_Background
            w).1] ∧
      (NewChildSpanFromContext cluster.params.tracer "redis.command" context_Background
        w).1.finished = false := by
  obtain ⟨p, ps, h⟩ := strings_Split_cons cmd.String ' '
  unfold clusterWrapper
  have hhost : (cluster.lastSuccessfulCall none).params.host = "" := rfl
  have hport : (cluster.lastSuccessfulCall none).params.port = "" := rfl
  have hdb : (cluster.lastSuccessfulCall none).params.db = "" := rfl
  have hsvc : (cluster.lastSuccessfulCall none).params.service = cluster.params.service := rfl
  have htr : (cluster.lastSuccessfulCall none).params.tracer = cluster.params.tracer := rfl
  generalize cluster.lastSuccessfulCall none = cl0 at *
  rcases hr : oldProcess cmd cl0 w.backend with ⟨err, cl, b⟩
  cases err <;>
    simp [h, hr, hhost, hport, hdb, hsvc, htr, context_Background, NewChildSpanFromContext,
      newRootSpan, World.NextSpanID, World.emit, Span.assignService, Span.assignResource,
      Span.SetMeta, Span.SetError, Span.Finish, replay, Event.onSpan]

/-- `Pipeliner.Exec`, event by event. -/
theorem Pipeliner_Exec_replay (c : Pipeliner σ) (w : World σ) :
    ∃ evs,
      evs =
        (if c.params.host = "" then [] else [Event.SetMeta "out.host" c.params.host]) ++
        (if c.params.port = "" then [] else [.SetMeta "out.port" c.params.port]) ++
        (if c.params.db = "" then [] else [.SetMeta "out.db" c.params.db]) ++
        [.Exec] ++
        (match (c.Pipeliner w.backend).1.2 with
          | some e => [.SetError e]
          | none => []) ++
        [.AssignResource (commandsToString (c.Pipeliner w.backend).1.1),
         .SetMeta "redis.pipeline_length"
           (strconv_Itoa (c.Pipeliner w.backend).1.1.length)] ∧
      (c.Exec w).2.log = w.log ++
        [.NewRootSpan c.params.tracer "redis.command" c.params.service "redis"] ++ evs ++
        [.Finish] ∧
      (c.Exec w).2.finishedSpans = w.finishedSpans ++
        [replay (evs ++ [.Finish])
          (NewRootSpan c.params.tracer "redis.command" c.params.service "redis" w).1] ∧
      (NewRootSpan c.params.tracer "redis.command" c.params.service "redis" w).1.finished
        = false := by
  unfold Pipeliner.Exec
  rcases hr : c.Pipeliner w.backend with ⟨⟨cmds, err⟩, b⟩
  by_cases hh : c.params.host = "" <;> by_cases hp : c.params.port = "" <;>
    by_cases hd : c.params.db = "" <;> cases err <;>
    simp [hr, hh, hp, hd, NewRootSpan, newRootSpan, World.NextSpanID, World.emit,
      Span.assignResource, Span.SetMeta, Span.SetError, Span.Finish, replay, Event.onSpan]

/-- `ExecWithContext` on a `*Pipeliner`, event by event. -/
theorem ExecWithContext_replay (c : Pipeliner σ) (ctx : Context) (w : World σ) :
    ∃ evs,
      evs =
        [Event.AssignService c.params.service] ++
        (if c.params.host = "" then [] else [.SetMeta "out.host" c.params.host]) ++
        (if c.params.port = "" then [] else [.SetMeta "out.port" c.params.port]) ++
        (if c.params.db = "" then [] else [.SetMeta "out.db" c.params.db]) ++
        [.Exec] ++
        (match (c.Pipeliner w.backend).1.2 with
          | some e => [.SetError e]
          | none => []) ++
        [.AssignResource (commandsToString (c.Pipeliner w.backend).1.1),
         .SetMeta "redis.pipeline_length"
           (strconv_Itoa (c.Pipeliner w.backend).1.1.length)] ∧
      (ExecWithContext (.traced c) ctx w).2.log = w.log ++
        [.NewChildSpanFromContext c.params.tracer "redis.command" ctx] ++ evs ++ [.Finish] ∧
      (ExecWithContext (.traced c) ctx w).2.finishedSpans = w.finishedSpans ++
        [replay (evs ++ [.Finish])
          (NewChildSpanFromContext c.params.tracer "redis.command" ctx w).1] ∧
      (NewChildSpanFromContext c.params.tracer "redis.command" ctx w).1.finished = false := by
  unfold ExecWithContext
  rcases hr : c.Pipeliner w.backend with ⟨⟨cmds, err⟩, b⟩
  cases hctx : ctx.span <;> by_cases hh : c.params.host = "" <;>
    by_cases hp : c.params.port = "" <;> by_cases hd : c.params.db = "" <;> cases err <;>
    simp [hr, hctx, hh, hp, hd, NewChildSpanFromContext, NewChildSpan, newRootSpan,
      World.NextSpanID, World.emit, Span.assignService, Span.assignResource, Span.SetMeta,
      Span.SetError, Span.Finish, replay, Event.onSpan]

/-! ### The wrapped call -/

/-- C1: tracing never alters the result of the traced call. The client command
wrapper returns, without panicking, exactly the error of `oldProcess(cmd)`,
leaves the backend as one call of `oldProcess(cmd)` leaves it, and adds exactly
one call of the wrapped function to the log, namely `oldProcess(cmd)`; likewise
`Pipeliner.Exec` and `ExecWithContext` on a `*Pipeliner` return exactly the
`(cmds, err)` pair of the embedded `Exec`, which they call exactly once. -/
theorem tracing_preserves_result (tc : Client σ)
    (oldProcess : Cmder → σ → Option GoError × σ) (cmd : Cmder) (c : Pipeliner σ)
    (ctx : Context) (w : World σ) :
    (∃ w', createWrapperFromClient tc oldProcess cmd w
          = .ok ((oldProcess cmd w.backend).1, w') ∧
        w'.backend = (oldProcess cmd w.backend).2 ∧
        w'.log.filter Event.isCall = w.log.filter Event.isCall ++ [.oldProcess cmd]) ∧
    ((c.Exec w).1 = (c.Pipeliner w.backend).1 ∧
        (c.Exec w).2.backend = (c.Pipeliner w.backend).2 ∧
        (c.Exec w).2.log.filter Event.isCall = w.log.filter Event.isCall ++ [.Exec]) ∧
    ((ExecWithContext (.traced c) ctx w).1 = (c.Pipeliner w.backend).1 ∧
        (ExecWithContext (.traced c) ctx w).2.backend = (c.Pipeliner w.backend).2 ∧
        (ExecWithContext (.traced c) ctx w).2.log.filter Event.isCall
          = w.log.filter Event.isCall ++ [.Exec]) := by
  refine ⟨?_, ?_, ?_⟩
  · obtain ⟨_, w', hres, hb, _, hlog, _⟩ := createWrapperFromClient_spec tc oldProcess cmd w
    refine ⟨w', hres, hb, ?_⟩
    rw [hlog]
    cases (oldProcess cmd w.backend).1 <;> by_cases hh : tc.params.host = "" <;>
      by_cases hp : tc.params.port = "" <;>
      simp [List.filter_cons, Event.isCall, hh, hp]
  · obtain ⟨_, hres, hb, _, hlog, _⟩ := Pipeliner_Exec_spec c w
    refine ⟨hres, hb, ?_⟩
    rw [hlog]
    cases (c.Pipeliner w.backend).1.2 <;> by_cases hh : c.params.host = "" <;>
      by_cases hp : c.params.port = "" <;> by_cases hd : c.params.db = "" <;>
      simp [List.filter_cons, Event.isCall, hh, hp, hd]
  · obtain ⟨_, hres, hb, _, hlog, _⟩ := ExecWithContext_spec c ctx w
    refine ⟨hres, hb, ?_⟩
    rw [hlog]
    cases (c.Pipeliner w.backend).1.2 <;> by_cases hh : c.params.host = "" <;>
      by_cases hp : c.params.port = "" <;> by_cases hd : c.params.db = "" <;>
      simp [List.filter_cons, Event.isCall, hh, hp, hd]

/-- C2: in the client command wrapper `span.SetError` is called if and only if
`oldProcess(cmd)` returns a non-nil error, and then with that very error. The
finished span has the error flag and the tag `error.msg` equal to the text of
the error when there is one; when the call returns nil the flag stays zero and
there is no `error.msg`. -/
theorem SetError_iff_error (tc : Client σ) (oldProcess : Cmder → σ → Option GoError × σ)
    (cmd : Cmder) (w : World σ) :
    ∃ span w' evs,
      createWrapperFromClient tc oldProcess cmd w = .ok ((oldProcess cmd w.backend).1, w') ∧
      w'.finishedSpans = w.finishedSpans ++ [span] ∧
      w'.log = w.log ++ evs ∧
      (∀ e, Event.SetError e ∈ evs ↔ (oldProcess cmd w.backend).1 = some e) ∧
      span.Error = (if ((oldProcess cmd w.backend).1).isSome then 1 else 0) ∧
      span.tag "error.msg" = ((oldProcess cmd w.backend).1).map GoError.text := by
  obtain ⟨span, w', hres, _, hfin, hlog, _, _, _, _, _, _, _, _, _, _, hmsg, herr⟩ :=
    createWrapperFromClient_spec tc oldProcess cmd w
  simp only [List.append_assoc] at hlog
  refine ⟨span, w', w'.log.drop w.log.length, hres, hfin, ?_, ?_, herr, hmsg⟩
  · rw [hlog]
    simp
  · intro e
    rw [hlog]
    cases (oldProcess cmd w.backend).1 <;> by_cases hh : tc.params.host = "" <;>
      by_cases hp : tc.params.port = "" <;> simp [hh, hp, eq_comm]

/-- C3: `ExecWithContext` applied to a `redis.Pipeliner` that is not a
`*Pipeliner` (the nil interface or any other implementation) returns the nil
slice and the error "pipeliner is not of type *redistrace.Pipeliner" and leaves
the world as it was: no span is started and `p` is not executed. Applied to a
`*Pipeliner` it returns exactly the pair of the embedded `Exec`, so its error is
that `Exec`'s error. -/
theorem ExecWithContext_not_traced (exec : σ → (List Cmder × Option GoError) × σ)
    (c : Pipeliner σ) (ctx : Context) (w : World σ) :
    ExecWithContext .nil ctx w
      = (([], some ⟨"pipeliner is not of type *redistrace.Pipeliner"⟩), w) ∧
    ExecWithContext (.other exec) ctx w
      = (([], some ⟨"pipeliner is not of type *redistrace.Pipeliner"⟩), w) ∧
    (ExecWithContext (.traced c) ctx w).1 = (c.Pipeliner w.backend).1 := by
  refine ⟨rfl, rfl, ?_⟩
  obtain ⟨_, hres, _⟩ := ExecWithContext_spec c ctx w
  exact hres

/-! ### The tags and fields of the span -/

/-- C4: `commandsToString(cmds)` is the concatenation, in list order, of each
command's `String()` followed by one newline; the empty list gives the empty
string, a non-empty list a string that ends in a newline; and it is the Resource
of the span that `Pipeliner.Exec` and `ExecWithContext` finish, `cmds` being the
commands the embedded `Exec` returned. Two expire commands give the string of
the pipeline test. -/
theorem commandsToString_concat (cmds : List Cmder) (cmd : Cmder) (c : Pipeliner σ)
    (ctx : Context) (w : World σ) :
    commandsToString cmds = String.join (cmds.map (fun x => x.String ++ "\n")) ∧
    commandsToString [] = "" ∧
    (commandsToString (cmd :: cmds)).data.getLast? = some '\n' ∧
    (∃ span, (c.Exec w).2.finishedSpans = w.finishedSpans ++ [span] ∧
        span.Resource = commandsToString (c.Pipeliner w.backend).1.1) ∧
    (∃ span, (ExecWithContext (.traced c) ctx w).2.finishedSpans = w.finishedSpans ++ [span] ∧
        span.Resource = commandsToString (c.Pipeliner w.backend).1.1) ∧
    commandsToString
        [⟨"expire pipeline_counter 3600: false"⟩, ⟨"expire pipeline_counter_1 60: false"⟩]
      = "expire pipeline_counter 3600: false\nexpire pipeline_counter_1 60: false\n" := by
  have hjoin : ∀ l : List Cmder,
      commandsToString l = String.join (l.map (fun x => x.String ++ "\n")) := by
    intro l
    unfold commandsToString
    rw [commandsToString_foldl]
    apply String.ext
    simp
  refine ⟨hjoin cmds, rfl, ?_, ?_, ?_, by decide⟩
  · rw [hjoin]
    induction cmds generalizing cmd with
    | nil => simp
    | cons x xs ih =>
      have h := ih x
      simp only [List.map_cons, String.data_join, List.flatten_cons, String.data_append] at h ⊢
      rw [List.getLast?_append, h]
      rfl
  · obtain ⟨span, _, _, hfin, _, _, _, hres, _⟩ := Pipeliner_Exec_spec c w
    exact ⟨span, hfin, hres⟩
  · obtain ⟨span, _, _, hfin, _, _, _, hres, _⟩ := ExecWithContext_spec c ctx w
    exact ⟨span, hfin, hres⟩

/-- C5: for every pipeline run through `Pipeliner.Exec` or through
`ExecWithContext` on a `*Pipeliner`, the tag `redis.pipeline_length` of the
finished span is the base-10 rendering of the number of commands the embedded
`Exec` returned, whatever error it returned with them: "1" for one command, "2"
for two. -/
theorem pipeline_length_tag (c : Pipeliner σ) (ctx : Context) (w : World σ) (a b : Cmder) :
    (∃ span, (c.Exec w).2.finishedSpans = w.finishedSpans ++ [span] ∧
        span.tag "redis.pipeline_length"
          = some (strconv_Itoa (c.Pipeliner w.backend).1.1.length) ∧
        span.tag "redis.pipeline_length"
          = some (Nat.repr (c.Pipeliner w.backend).1.1.length)) ∧
    (∃ span, (ExecWithContext (.traced c) ctx w).2.finishedSpans = w.finishedSpans ++ [span] ∧
        span.tag "redis.pipeline_length"
          = some (strconv_Itoa (c.Pipeliner w.backend).1.1.length) ∧
        span.tag "redis.pipeline_length"
          = some (Nat.repr (c.Pipeliner w.backend).1.1.length)) ∧
    strconv_Itoa ([a].length) = "1" ∧
    strconv_Itoa ([a, b].length) = "2" := by
  have h1 : strconv_Itoa (Int.ofNat 1) = "1" := by decide
  have h2 : strconv_Itoa (Int.ofNat 2) = "2" := by decide
  refine ⟨?_, ?_, h1, h2⟩
  · obtain ⟨span, _, _, hfin, _, _, _, _, _, _, hlen, _⟩ := Pipeliner_Exec_spec c w
    exact ⟨span, hfin, hlen, hlen⟩
  · obtain ⟨span, _, _, hfin, _, _, _, _, _, _, hlen, _⟩ := ExecWithContext_spec c ctx w
    exact ⟨span, hfin, hlen, hlen⟩

/-- C6: for a command whose string form is `raw`, the client command wrapper
sets the tag `redis.raw_command` to `raw` and the tag `redis.args_length` to the
base-10 rendering of the number of pieces of `raw` split on the space, minus
one; that number is the number of spaces in `raw`, and for
"set test_key test_value: " the tag is "3". -/
theorem args_length_tag (tc : Client σ) (oldProcess : Cmder → σ → Option GoError × σ)
    (cmd : Cmder) (w : World σ) :
    (∃ span w',
      createWrapperFromClient tc oldProcess cmd w = .ok ((oldProcess cmd w.backend).1, w') ∧
      w'.finishedSpans = w.finishedSpans ++ [span] ∧
      span.tag "redis.raw_command" = some cmd.String ∧
      span.tag "redis.args_length"
        = some (strconv_Itoa (((strings_Split cmd.String ' ').length : Int) - 1)) ∧
      span.tag "redis.args_length" = some (Nat.repr (cmd.String.data.count ' '))) ∧
    ((strings_Split cmd.String ' ').length : Int) - 1 = (cmd.String.data.count ' ' : Nat) ∧
    strconv_Itoa (((strings_Split "set test_key test_value: " ' ').length : Int) - 1) = "3" := by
  have hcount : ((strings_Split cmd.String ' ').length : Int) - 1
      = (cmd.String.data.count ' ' : Nat) := by
    rw [strings_Split_length]
    push_cast
    ring
  refine ⟨?_, hcount, by decide⟩
  obtain ⟨span, w', hres, _, hfin, _, _, _, _, _, _, hraw, hargs, _⟩ :=
    createWrapperFromClient_spec tc oldProcess cmd w
  refine ⟨span, w', hres, hfin, hraw, hargs, ?_⟩
  rw [hargs, hcount]
  rfl

/-- C7: `WrapClient` stores as host and port the two results of
`net.SplitHostPort` on the address of the options when it succeeds, and the
address itself with port "6379" when it fails; the stored db is the base-10
rendering of the database number. Every command span of the client, whatever
context the client is given later, carries `out.host` exactly when the host is
non-empty, `out.port` exactly when the port is non-empty, and `out.db` always;
for the address "127.0.0.1:7006" the tags are "127.0.0.1" and "7006". -/
theorem WrapClient_out_tags (c : RedisClient σ) (service : String) (t : Option Tracer)
    (ctx : Context) (cmd : Cmder) (n : Int) (w w1 : World σ) :
    (WrapClient c service t w).1.params.host
      = (match net_SplitHostPort c.opt.Addr with
          | .ok (host, _) => host
          | .error _ => c.opt.Addr) ∧
    (WrapClient c service t w).1.params.port
      = (match net_SplitHostPort c.opt.Addr with
          | .ok (_, port) => port
          | .error _ => "6379") ∧
    (WrapClient c service t w).1.params.db = strconv_Itoa c.opt.DB ∧
    (∃ span w',
      ((WrapClient c service t w).1.WithContext ctx).Process cmd w1
        = .ok ((c.process cmd w1.backend).1, w') ∧
      w'.finishedSpans = w1.finishedSpans ++ [span] ∧
      span.tag "out.host"
        = (if (WrapClient c service t w).1.params.host = "" then none
           else some (WrapClient c service t w).1.params.host) ∧
      span.tag "out.port"
        = (if (WrapClient c service t w).1.params.port = "" then none
           else some (WrapClient c service t w).1.params.port) ∧
      span.tag "out.db" = some (strconv_Itoa c.opt.DB)) ∧
    (∃ span w',
      ((WrapClient { c with opt := ⟨"127.0.0.1:7006", n⟩ } service t w).1.WithContext
          ctx).Process cmd w1
        = .ok ((c.process cmd w1.backend).1, w') ∧
      w'.finishedSpans = w1.finishedSpans ++ [span] ∧
      span.tag "out.host" = some "127.0.0.1" ∧
      span.tag "out.port" = some "7006" ∧
      span.tag "out.db" = some (strconv_Itoa n)) := by
  have hsplit : net_SplitHostPort "127.0.0.1:7006" = .ok ("127.0.0.1", "7006") := by rfl
  refine ⟨?_, ?_, rfl, ?_, ?_⟩
  · rcases h : net_SplitHostPort c.opt.Addr with e | ⟨host, port⟩ <;>
      simp [WrapClient, RedisClient.Options, h]
  · rcases h : net_SplitHostPort c.opt.Addr with e | ⟨host, port⟩ <;>
      simp [WrapClient, RedisClient.Options, h]
  · obtain ⟨span, w', hres, _, hfin, _, _, _, _, _, _, _, _, hhost, hport, hdb, _⟩ :=
      createWrapperFromClient_spec ((WrapClient c service t w).1.WithContext ctx)
        c.process cmd w1
    exact ⟨span, w', hres, hfin, hhost, hport, hdb⟩
  · obtain ⟨span, w', hres, _, hfin, _, _, _, _, _, _, _, _, hhost, hport, hdb, _⟩ :=
      createWrapperFromClient_spec
        ((WrapClient { c with opt := ⟨"127.0.0.1:7006", n⟩ } service t w).1.WithContext ctx)
        c.process cmd w1
    refine ⟨span, w', hres, hfin, ?_, ?_, hdb⟩
    · rw [hhost]
      simp [WrapClient, RedisClient.Options, Client.WithContext, hsplit]
    · rw [hport]
      simp [WrapClient, RedisClient.Options, Client.WithContext, hsplit]

/-- C8: the span finished by the client command wrapper, by `Pipeliner.Exec` and
by `ExecWithContext` has the Name "redis.command" and the Service the wrapper
was configured with, for every context: also when the context carries a parent
span of another service. -/
theorem span_name_and_service (tc : Client σ) (oldProcess : Cmder → σ → Option GoError × σ)
    (cmd : Cmder) (c : Pipeliner σ) (ctx : Context) (w : World σ) :
    (∃ span w',
      createWrapperFromClient (tc.WithContext ctx) oldProcess cmd w
        = .ok ((oldProcess cmd w.backend).1, w') ∧
      w'.finishedSpans = w.finishedSpans ++ [span] ∧
      span.Name = "redis.command" ∧ span.Service = tc.params.service) ∧
    (∃ span, (c.Exec w).2.finishedSpans = w.finishedSpans ++ [span] ∧
      span.Name = "redis.command" ∧ span.Service = c.params.service) ∧
    (∃ span, (ExecWithContext (.traced c) ctx w).2.finishedSpans = w.finishedSpans ++ [span] ∧
      span.Name = "redis.command" ∧ span.Service = c.params.service) := by
  refine ⟨?_, ?_, ?_⟩
  · obtain ⟨span, w', hres, _, hfin, _, hname, hsvc, _⟩ :=
      createWrapperFromClient_spec (tc.WithContext ctx) oldProcess cmd w
    exact ⟨span, w', hres, hfin, hname, hsvc⟩
  · obtain ⟨span, _, _, hfin, _, hname, hsvc, _⟩ := Pipeliner_Exec_spec c w
    exact ⟨span, hfin, hname, hsvc⟩
  · obtain ⟨span, _, _, hfin, _, hname, hsvc, _⟩ := ExecWithContext_spec c ctx w
    exact ⟨span, hfin, hname, hsvc⟩

/-! ### The constructors -/

/-- C9: what `NewClient(opt)` does: the client is traced with the default
tracer, and the service stored in its params, registered with the tracer and
given to its spans is "redis.client", not "redis". -/
theorem NewClient_service (server : Cmder → σ → Option GoError × σ) (opt : Options)
    (cmd : Cmder) (w w1 : World σ) :
    (NewClient server opt w).1.params.service = "redis.client" ∧
    (NewClient server opt w).1.params.service ≠ "redis" ∧
    (NewClient server opt w).1.params.tracer = w.DefaultTracer ∧
    (NewClient server opt w).2.log
      = w.log ++ [.SetServiceInfo w.DefaultTracer "redis.client" "redis" AppTypeDB] ∧
    (∃ span w',
      (NewClient server opt w).1.Process cmd w1 = .ok ((server cmd w1.backend).1, w') ∧
      w'.finishedSpans = w1.finishedSpans ++ [span] ∧
      span.Service = "redis.client") := by
  have hsvc : (NewClient server opt w).1.params.service = "redis.client" := rfl
  refine ⟨hsvc, by rw [hsvc]; decide, rfl, rfl, ?_⟩
  obtain ⟨span, w', hres, _, hfin, _, _, hsvc, _⟩ :=
    createWrapperFromClient_spec (NewClient server opt w).1 server cmd w1
  exact ⟨span, w', hres, hfin, hsvc⟩

/-- C10: what `NewClientWithServiceName(opt, service, nil)` does: the params of
the client hold the nil tracer, `SetServiceInfo` is called on the nil tracer, and
the command spans are asked of the nil tracer; the default tracer is not put
in its place. -/
theorem NewClientWithServiceName_nil_tracer (server : Cmder → σ → Option GoError × σ)
    (opt : Options) (service : String) (cmd : Cmder) (w w1 : World σ) :
    (NewClientWithServiceName server opt service none w).1.params.tracer = none ∧
    (NewClientWithServiceName server opt service none w).2.log
      = w.log ++ [.SetServiceInfo none service "redis" AppTypeDB] ∧
    (∃ w',
      (NewClientWithServiceName server opt service none w).1.Process cmd w1
        = .ok ((server cmd w1.backend).1, w') ∧
      (w'.log.drop w1.log.length).head?
        = some (.NewChildSpanFromContext none "redis.command" context_Background)) := by
  refine ⟨rfl, rfl, ?_⟩
  obtain ⟨_, w', hres, _, _, hlog, _⟩ :=
    createWrapperFromClient_spec (NewClientWithServiceName server opt service none w).1
      server cmd w1
  refine ⟨w', hres, ?_⟩
  simp only [List.append_assoc] at hlog
  rw [hlog]
  simp
  exact ⟨rfl, rfl⟩

/-! ### The tracer -/

/-- C11: for every parent span `p` and every name `n`, `NewChildSpan(n, p)`
returns a span with the TraceID of `p`, ParentID the SpanID of `p`, the Service
of `p`, Resource `n` and the owning tracer of `p`; and a redis command issued on
a client whose context carries `p` finishes a span whose ParentID is the SpanID
of `p`. -/
theorem NewChildSpan_inherits (n : String) (p : Span) (w : World σ) (tc : Client σ)
    (ctx : Context) (oldProcess : Cmder → σ → Option GoError × σ) (cmd : Cmder) :
    (NewChildSpan n p w).1.TraceID = p.TraceID ∧
    (NewChildSpan n p w).1.ParentID = p.SpanID ∧
    (NewChildSpan n p w).1.Service = p.Service ∧
    (NewChildSpan n p w).1.Resource = n ∧
    (NewChildSpan n p w).1.Name = n ∧
    (NewChildSpan n p w).1.tracer = p.tracer ∧
    (∃ span w',
      createWrapperFromClient (tc.WithContext (ContextWithSpan ctx p)) oldProcess cmd w
        = .ok ((oldProcess cmd w.backend).1, w') ∧
      w'.finishedSpans = w.finishedSpans ++ [span] ∧
      span.ParentID = p.SpanID) := by
  refine ⟨rfl, rfl, rfl, rfl, rfl, rfl, ?_⟩
  obtain ⟨span, w', hres, _, hfin, _, _, _, _, _, hpar, _⟩ :=
    createWrapperFromClient_spec (tc.WithContext (ContextWithSpan ctx p)) oldProcess cmd w
  exact ⟨span, w', hres, hfin, hpar⟩

/-- C12: on a tracer that is disabled before a span is created, finishing the
span leaves the buffer as it was, so its length stays 0 on a new tracer; the
span stays out of the buffer also when it is finished after `Enable`; and one
span created and finished while disabled followed by one created and finished
after `Enable` leaves exactly 1 buffered trace. -/
theorem disabled_tracer_buffers_nothing (t : TracerState) (name service resource : String)
    (addr : Nat) (ids : Nat → Nat) :
    ((t.Disable.NewSpan name service resource).2.Finish
        (t.Disable.NewSpan name service resource).1).2.buffer = t.buffer ∧
    ((t.Disable.NewSpan name service resource).2.Enable.Finish
        (t.Disable.NewSpan name service resource).1).2.buffer = t.buffer ∧
    TestTracerDisabled addr ids = 0 ∧
    TestTracerEnabledAgain addr ids = 1 := by
  refine ⟨?_, ?_, ?_, ?_⟩
  · simp [TracerState.Disable, TracerState.NewSpan, TracerState.Finish]
  · simp [TracerState.Disable, TracerState.Enable, TracerState.NewSpan, TracerState.Finish]
  · simp [TestTracerDisabled, NewTracer, TracerState.Disable, TracerState.NewSpan,
      TracerState.Finish, TracerState.Len]
  · simp [TestTracerEnabledAgain, NewTracer, TracerState.Disable, TracerState.Enable,
      TracerState.NewSpan, TracerState.Finish, TracerState.Len, Push]

/-! ### The order of the calls on the span -/

/-- C13: in each traced path (the client command wrapper, the cluster command
wrapper, `Pipeliner.Exec` and `ExecWithContext` on a `*Pipeliner`), whatever the
wrapped call returns, the path appends to the log the creation of one span, then
events `evs` that hold no `Finish` and create no span, then one `Finish`; it adds
exactly one span to the finished spans, and that span is the span it created,
unfinished until then, with the events `evs` and the `Finish` made on it in that
order. So the span that is created is finished exactly once, after every
`SetMeta`, every assignment of Service or Resource and any `SetError`, all of
which it carries when it is finished. The operations on a span change it as
`Event.onSpan` of the event they log. -/
theorem Finish_once_and_last (tc : Client σ) (oldProcess : Cmder → σ → Option GoError × σ)
    (clusterProcess : Cmder → ClusterClient σ → σ → Option GoError × ClusterClient σ × σ)
    (cluster : ClusterClient σ) (cmd : Cmder) (c : Pipeliner σ) (ctx : Context)
    (w : World σ) (span : Span) (key value : String) (err : GoError) :
    (∃ w' evs,
      createWrapperFromClient tc oldProcess cmd w = .ok ((oldProcess cmd w.backend).1, w') ∧
      w'.log = w.log ++
        [.NewChildSpanFromContext tc.params.tracer "redis.command" tc.Client.ctx] ++ evs ++
        [.Finish] ∧
      Event.Finish ∉ evs ∧
      (∀ t n x, Event.NewChildSpanFromContext t n x ∉ evs) ∧
      (∀ t n sv r, Event.NewRootSpan t n sv r ∉ evs) ∧
      w'.finishedSpans = w.finishedSpans ++
        [replay (evs ++ [.Finish])
          (NewChildSpanFromContext tc.params.tracer "redis.command" tc.Client.ctx w).1] ∧
      (NewChildSpanFromContext tc.params.tracer "redis.command" tc.Client.ctx w).1.finished
        = false) ∧
    (∃ cluster' w' evs,
      clusterWrapper clusterProcess cmd cluster w
        = .ok ((clusterProcess cmd (cluster.lastSuccessfulCall none) w.backend).1,
               cluster', w') ∧
      w'.log = w.log ++
        [.NewChildSpanFromContext cluster.params.tracer "redis.command" context_Background]
        ++ evs ++ [.Finish] ∧
      Event.Finish ∉ evs ∧
      (∀ t n x, Event.NewChildSpanFromContext t n x ∉ evs) ∧
      (∀ t n sv r, Event.NewRootSpan t n sv r ∉ evs) ∧
      w'.finishedSpans = w.finishedSpans ++
        [replay (evs ++ [.Finish])
          (NewChildSpanFromContext cluster.params.tracer "redis.command" context_Background
            w).1] ∧
      (NewChildSpanFromContext cluster.params.tracer "redis.command" context_Background
        w).1.finished = false) ∧
    (∃ evs,
      (c.Exec w).2.log = w.log ++
        [.NewRootSpan c.params.tracer "redis.command" c.params.service "redis"] ++ evs ++
        [.Finish] ∧
      Event.Finish ∉ evs ∧
      (∀ t n x, Event.NewChildSpanFromContext t n x ∉ evs) ∧
      (∀ t n sv r, Event.NewRootSpan t n sv r ∉ evs) ∧
      (c.Exec w).2.finishedSpans = w.finishedSpans ++
        [replay (evs ++ [.Finish])
          (NewRootSpan c.params.tracer "redis.command" c.params.service "redis" w).1] ∧
      (NewRootSpan c.params.tracer "redis.command" c.params.service "redis" w).1.finished
        = false) ∧
    (∃ evs,
      (ExecWithContext (.traced c) ctx w).2.log = w.log ++
        [.NewChildSpanFromContext c.params.tracer "redis.command" ctx] ++ evs ++ [.Finish] ∧
      Event.Finish ∉ evs ∧
      (∀ t n x, Event.NewChildSpanFromContext t n x ∉ evs) ∧
      (∀ t n sv r, Event.NewRootSpan t n sv r ∉ evs) ∧
      (ExecWithContext (.traced c) ctx w).2.finishedSpans = w.finishedSpans ++
        [replay (evs ++ [.Finish])
          (NewChildSpanFromContext c.params.tracer "redis.command" ctx w).1] ∧
      (NewChildSpanFromContext c.params.tracer "redis.command" ctx w).1.finished = false) ∧
    ((span.assignService value w).1 = (Event.AssignService value).onSpan span ∧
      (span.assignResource value w).1 = (Event.AssignResource value).onSpan span ∧
      (span.SetMeta key value w).1 = (Event.SetMeta key value).onSpan span ∧
      (span.SetError err w).1 = (Event.SetError err).onSpan span ∧
      (span.Finish w).1 = Event.Finish.onSpan span) := by
  refine ⟨?_, ?_, ?_, ?_, onSpan_agrees span key value err w⟩
  · obtain ⟨w', evs, hres, hevs, hlog, hfin, hnew⟩ :=
      createWrapperFromClient_replay tc oldProcess cmd w
    refine ⟨w', evs, hres, hlog, ?_, ?_, ?_, hfin, hnew⟩ <;> rw [hevs] <;>
      cases (oldProcess cmd w.backend).1 <;> by_cases hh : tc.params.host = "" <;>
      by_cases hp : tc.params.port = "" <;> simp [hh, hp]
  · obtain ⟨w', evs, hres, hevs, hlog, hfin, hnew⟩ :=
      clusterWrapper_replay clusterProcess cmd cluster w
    refine ⟨_, w', evs, hres, hlog, ?_, ?_, ?_, hfin, hnew⟩ <;> rw [hevs] <;>
      cases (clusterProcess cmd (cluster.lastSuccessfulCall none) w.backend).1 <;> simp
  · obtain ⟨evs, hevs, hlog, hfin, hnew⟩ := Pipeliner_Exec_replay c w
    refine ⟨evs, hlog, ?_, ?_, ?_, hfin, hnew⟩ <;> rw [hevs] <;>
      cases (c.Pipeliner w.backend).1.2 <;> by_cases hh : c.params.host = "" <;>
      by_cases hp : c.params.port = "" <;> by_cases hd : c.params.db = "" <;>
      simp [hh, hp, hd]
  · obtain ⟨evs, hevs, hlog, hfin, hnew⟩ := ExecWithContext_replay c ctx w
    refine ⟨evs, hlog, ?_, ?_, ?_, hfin, hnew⟩ <;> rw [hevs] <;>
      cases (c.Pipeliner w.backend).1.2 <;> by_cases hh : c.params.host = "" <;>
      by_cases hp : c.params.port = "" <;> by_cases hd : c.params.db = "" <;>
      simp [hh, hp, hd]

/-! ### The resource of a command span -/

/-- C14: for every command string `raw`, the empty string included, splitting
`raw` on the space gives at least one piece, so `parts[0]` is in range and
neither the client nor the cluster command wrapper panics; the Resource of the
span is the prefix of `raw` before its first space (all of `raw` when it has
none) and holds no space. -/
theorem Resource_is_first_piece (tc : Client σ) (oldProcess : Cmder → σ → Option GoError × σ)
    (clusterProcess : Cmder → ClusterClient σ → σ → Option GoError × ClusterClient σ × σ)
    (cluster : ClusterClient σ) (cmd : Cmder) (w : World σ) :
    0 < (strings_Split cmd.String ' ').length ∧
    strings_Split "" ' ' = [""] ∧
    (strings_Split cmd.String ' ').get? 0
      = some (String.mk (cmd.String.data.takeWhile (fun x => x != ' '))) ∧
    (∃ span w',
      createWrapperFromClient tc oldProcess cmd w = .ok ((oldProcess cmd w.backend).1, w') ∧
      w'.finishedSpans = w.finishedSpans ++ [span] ∧
      span.Resource = String.mk (cmd.String.data.takeWhile (fun x => x != ' ')) ∧
      ' ' ∉ span.Resource.data) ∧
    (∃ span cluster' w',
      clusterWrapper clusterProcess cmd cluster w
        = .ok ((clusterProcess cmd (cluster.lastSuccessfulCall none) w.backend).1,
               cluster', w') ∧
      w'.finishedSpans = w.finishedSpans ++ [span] ∧
      span.Resource = String.mk (cmd.String.data.takeWhile (fun x => x != ' ')) ∧
      ' ' ∉ span.Resource.data) := by
  have hno : ' ' ∉ (String.mk (cmd.String.data.takeWhile (fun x => x != ' '))).data := by
    intro hmem
    have := List.mem_takeWhile_imp hmem
    simp at this
  refine ⟨?_, by decide, ?_, ?_, ?_⟩
  · rw [strings_Split_length]
    exact Nat.succ_pos _
  · obtain ⟨p, ps, h⟩ := strings_Split_cons cmd.String ' '
    have hh := strings_Split_headD cmd.String ' '
    rw [h] at hh ⊢
    simpa using hh
  · obtain ⟨span, w', hres, _, hfin, _, _, _, hrsc, _⟩ :=
      createWrapperFromClient_spec tc oldProcess cmd w
    rw [strings_Split_headD] at hrsc
    refine ⟨span, w', hres, hfin, hrsc, ?_⟩
    rw [hrsc]
    exact hno
  · obtain ⟨span, w', hres, _, hfin, _, _, _, hrsc, _⟩ :=
      clusterWrapper_spec clusterProcess cmd cluster w
    rw [strings_Split_headD] at hrsc
    refine ⟨span, _, w', hres, hfin, hrsc, ?_⟩
    rw [hrsc]
    exact hno

/-! ### The cluster client -/

/-- C15: what `NewClusterClientWithServiceName(opts, s)` does: whatever `s` is,
the service of the params and the service registered with the tracer are
"redis.cluster-client", the result being `WrapClusterClient` applied to that
literal; `WrapClusterClient(client, s)` itself stores and registers `s`, and so
does `NewUniversalClientWithServiceName` for a cluster. -/
theorem NewClusterClientWithServiceName_ignores_service {o : Type}
    (newCluster : o → RedisClusterClient σ) (opts : o) (s : String) (w : World σ) :
    (NewClusterClientWithServiceName newCluster opts s w).1.params.service
      = "redis.cluster-client" ∧
    (NewClusterClientWithServiceName newCluster opts s w).2.log
      = w.log ++ [.SetServiceInfo w.DefaultTracer "redis.cluster-client" "redis" AppTypeDB] ∧
    (NewClusterClientWithServiceName newCluster opts "my-cluster" w).1.params.service
      ≠ "my-cluster" ∧
    (WrapClusterClient (newCluster opts) s w).1.params.service = s ∧
    (WrapClusterClient (newCluster opts) s w).2.log
      = w.log ++ [.SetServiceInfo w.DefaultTracer s "redis" AppTypeDB] ∧
    NewUniversalClientWithServiceName (fun x => .cluster (newCluster x)) opts s w
      = .ok (.cluster (WrapClusterClient (newCluster opts) s w).1,
             (WrapClusterClient (newCluster opts) s w).2) := by
  have h : (NewClusterClientWithServiceName newCluster opts "my-cluster" w).1.params.service
      = "redis.cluster-client" := rfl
  exact ⟨rfl, rfl, by rw [h]; decide, rfl, rfl, rfl⟩

/-- C16: in a sequential execution every span of the cluster command wrapper
carries none of the tags `out.host`, `out.port` and `out.db`, whatever the params
held before the command: the wrapper starts with `lastSuccessfulCall(nil)`,
which clears host, port and db and leaves service and tracer as they were, and
`oldProcess` runs on the cleared params, after the tags were decided; the node
wrapper records the node only when its own call succeeded. -/
theorem cluster_span_has_no_out_tags
    (clusterProcess : Cmder → ClusterClient σ → σ → Option GoError × ClusterClient σ × σ)
    (cluster : ClusterClient σ) (node : RedisClient σ)
    (nodeProcess : Cmder → σ → Option GoError × σ) (cmd : Cmder) (s : σ) (w : World σ) :
    (∃ span w',
      clusterWrapper clusterProcess cmd cluster w
        = .ok ((clusterProcess cmd (cluster.lastSuccessfulCall none) w.backend).1,
               (clusterProcess cmd (cluster.lastSuccessfulCall none) w.backend).2.1, w') ∧
      w'.finishedSpans = w.finishedSpans ++ [span] ∧
      span.tag "out.host" = none ∧ span.tag "out.port" = none ∧ span.tag "out.db" = none ∧
      (∀ key value, Event.SetMeta key value ∈ w'.log.drop w.log.length ↔
        (key = "redis.raw_command" ∧ value = cmd.String) ∨
        (key = "redis.args_length" ∧
          value = strconv_Itoa (((strings_Split cmd.String ' ').length : Int) - 1)))) ∧
    (cluster.lastSuccessfulCall none).params
      = { host := "", port := "", db := "", service := cluster.params.service,
          tracer := cluster.params.tracer } ∧
    (clusterNodeWrapper node nodeProcess cmd cluster s).1 = (nodeProcess cmd s).1 ∧
    (clusterNodeWrapper node nodeProcess cmd cluster s).2.1
      = (if (nodeProcess cmd s).1 = none then cluster.lastSuccessfulCall (some node)
         else cluster) := by
  refine ⟨?_, rfl, rfl, ?_⟩
  · obtain ⟨span, w', hres, _, hfin, hlog, _, _, _, _, hhost, hport, hdb⟩ :=
      clusterWrapper_spec clusterProcess cmd cluster w
    refine ⟨span, w', hres, hfin, hhost, hport, hdb, ?_⟩
    intro key value
    simp only [List.append_assoc] at hlog
    rw [hlog]
    cases (clusterProcess cmd (cluster.lastSuccessfulCall none) w.backend).1 <;> simp
  · unfold clusterNodeWrapper
    cases h : (nodeProcess cmd s).1 <;> simp [h]

/-! ### The two ways to run a pipeline -/

/-- C17: for every `*Pipeliner` and every outcome of its embedded `Exec`,
`p.Exec()` and `ExecWithContext(p, ctx)` with a context that carries no span
return the same values, leave the same backend and finish spans with the same
Name "redis.command", the same Service (the configured one), the same Resource
`commandsToString(cmds)`, the same metadata (the `out.host`, `out.port`,
`out.db` tags, `redis.pipeline_length` and `error.msg`) and the same error flag;
after the events that create the span (`NewRootSpan` in the one,
`NewChildSpanFromContext` and the assignment of Service in the other) they make
the same calls in the same order, `SetError(err)` among them exactly when `err`
is not nil. -/
theorem Exec_and_ExecWithContext_agree (c : Pipeliner σ) (w : World σ) :
    (c.Exec w).1 = (ExecWithContext (.traced c) context_Background w).1 ∧
    (c.Exec w).2.backend = (ExecWithContext (.traced c) context_Background w).2.backend ∧
    (∃ s1 s2 evs,
      (c.Exec w).2.finishedSpans = w.finishedSpans ++ [s1] ∧
      (ExecWithContext (.traced c) context_Background w).2.finishedSpans
        = w.finishedSpans ++ [s2] ∧
      s1.Name = "redis.command" ∧ s2.Name = "redis.command" ∧
      s1.Service = c.params.service ∧ s2.Service = c.params.service ∧
      s1.Resource = commandsToString (c.Pipeliner w.backend).1.1 ∧
      s2.Resource = commandsToString (c.Pipeliner w.backend).1.1 ∧
      s1.Meta = s2.Meta ∧
      s1.Error = s2.Error ∧
      s1.tag "out.host" = (if c.params.host = "" then none else some c.params.host) ∧
      s1.tag "out.port" = (if c.params.port = "" then none else some c.params.port) ∧
      s1.tag "out.db" = (if c.params.db = "" then none else some c.params.db) ∧
      s1.tag "redis.pipeline_length"
        = some (strconv_Itoa (c.Pipeliner w.backend).1.1.length) ∧
      (c.Exec w).2.log
        = w.log ++ [.NewRootSpan c.params.tracer "redis.command" c.params.service "redis"]
            ++ evs ∧
      (ExecWithContext (.traced c) context_Background w).2.log
        = w.log ++ [.NewChildSpanFromContext c.params.tracer "redis.command"
                      context_Background,
                    .AssignService c.params.service] ++ evs ∧
      (∀ e, Event.SetError e ∈ evs ↔ (c.Pipeliner w.backend).1.2 = some e)) := by
  obtain ⟨s1, hres1, hb1, hfin1, hlog1, hn1, hs1, hr1, _, _, hl1, hh1, hp1, hd1, _, _⟩ :=
    Pipeliner_Exec_spec c w
  obtain ⟨_, hres2, hb2, _, hlog2, _⟩ := ExecWithContext_spec c context_Background w
  have hfin2 : (ExecWithContext (.traced c) context_Background w).2.finishedSpans
      = w.finishedSpans ++ [s1] := by
    rw [ExecWithContext_finishes_same_span, hfin1]
  simp only [List.append_assoc, List.singleton_append, List.cons_append, List.nil_append]
    at hlog1 hlog2
  have hevs : (c.Exec w).2.log.drop (w.log.length + 1)
      = (if c.params.host = "" then [] else [Event.SetMeta "out.host" c.params.host]) ++
        ((if c.params.port = "" then [] else [Event.SetMeta "out.port" c.params.port]) ++
        ((if c.params.db = "" then [] else [Event.SetMeta "out.db" c.params.db]) ++
        (Event.Exec ::
        ((match (c.Pipeliner w.backend).1.2 with
          | some e => [Event.SetError e]
          | none => []) ++
        [Event.AssignResource (commandsToString (c.Pipeliner w.backend).1.1),
         Event.SetMeta "redis.pipeline_length"
           (strconv_Itoa (c.Pipeliner w.backend).1.1.length),
         Event.Finish])))) := by
    rw [hlog1, drop_length_succ]
  refine ⟨hres1.trans hres2.symm, hb1.trans hb2.symm, s1, s1,
    ((c.Exec w).2.log.drop (w.log.length + 1)), hfin1, hfin2, hn1, hn1, hs1, hs1, hr1, hr1,
    rfl, rfl, hh1, hp1, hd1, hl1, ?_, ?_, ?_⟩
  · rw [hevs, hlog1]
    simp
  · rw [hevs, hlog2]
    simp
  · intro e
    rw [hevs]
    cases (c.Pipeliner w.backend).1.2 <;> by_cases hh : c.params.host = "" <;>
      by_cases hp : c.params.port = "" <;> by_cases hd : c.params.db = "" <;>
      simp [hh, hp, hd, eq_comm]

end Redistrace
